import Mathlib

/-!
Shallow embedding of `logger.go` from Unity-Technologies/echozap: an echo
middleware that wraps a handler and emits one structured zap log entry per
non-skipped request.

Modelling decisions:
* A Go `error` is `Option String` (`none` = nil).
* The echo context is a record `Ctx`; the `c.Error` sink is modelled as a
  list `reported` of errors the context has received, which `c.Error`
  appends to.
* A handler (`echo.HandlerFunc`) is a pure function transforming the
  context and returning an error: `Ctx → Ctx × Option String`.
* The zap logger is modelled by its output: the decorated handler returns,
  besides the context and the error, the list of emitted `LogEntry`s.
  `log.With(zap.Error(err))` is modelled by the entry's `withError` field
  (`some err` when the child logger carries the error field, `none` when
  `log` is used directly), so that attaching a nil error is distinguishable
  from attaching no error field at all.
* Wall-clock time is external: the latency string rendered into the entry
  is a parameter of the run.
* Each syntactic call of `next` in the source contributes `1` to the
  `nextCalls` counter of the result, so call counts are observable.
-/

/-- A Go `error` value: `none` is nil. -/
abbrev GoError := Option String

/-- `http.Header.Get`: first value for the key, `""` when absent. -/
def headerGet : List (String × String) → String → String
  | [], _ => ""
  | (k, v) :: rest, key => if k = key then v else headerGet rest key

/-- `echo.HeaderXRequestID`. -/
def HeaderXRequestID : String := "X-Request-Id"

/-- The echo request context, restricted to what the middleware reads and
writes.  `reported` is the error-reporting sink behind `c.Error`. -/
structure Ctx where
  reqMethod : String
  reqRequestURI : String
  reqHost : String
  reqHeader : List (String × String)
  realIP : String
  resStatus : Int
  resSize : Int
  resHeader : List (String × String)
  reported : List String
deriving DecidableEq, Repr

/-- `echo.HandlerFunc`: transforms the context, returns an error-or-nil. -/
abbrev HandlerFunc := Ctx → Ctx × GoError

/-- Zap log levels used by the middleware. -/
inductive Level where
  | info
  | warn
  | error
deriving DecidableEq, Repr

/-- A `zapcore.Field` value as the middleware builds them. -/
inductive FieldVal where
  | str (s : String)
  | int (n : Int)
  | i64 (n : Int)
deriving DecidableEq, Repr

/-- A keyed structured field. -/
structure ZapField where
  key : String
  val : FieldVal
deriving DecidableEq, Repr

/-- One emitted log entry.  `withError = some e` means the entry was
emitted through `log.With(zap.Error(e))` (with `e` possibly nil). -/
structure LogEntry where
  level : Level
  withError : Option GoError
  message : String
  fields : List ZapField
deriving DecidableEq, Repr

/-- The observable outcome of running the decorated handler on a request:
the returned error, the final context, the log entries emitted, and how
many times `next` was invoked. -/
structure HandlerResult where
  ret : GoError
  ctx : Ctx
  logs : List LogEntry
  nextCalls : Nat
deriving DecidableEq, Repr

/-- `Skipper func(c echo.Context) bool`. -/
abbrev Skipper := Ctx → Bool

/-- `ZapLoggerConfig`.  The Go `Skipper` field is a nilable function value,
hence an `Option`. -/
structure ZapLoggerConfig where
  Skipper : Option Skipper
  IncludeRequestLogMessage : Bool

/-- `DefaultSkipper` returns false which processes the middleware. -/
def DefaultSkipper : Skipper := fun _ => false

/-- `DefaultZapLoggerConfig` is the default ZapLogger middleware config. -/
def DefaultZapLoggerConfig : ZapLoggerConfig :=
  { Skipper := some DefaultSkipper, IncludeRequestLogMessage := false }

/-- `ZapLoggerWithConfig`: the middleware with configuration.  Given the
config and the `next` handler it yields the decorated handler; the extra
`latency` argument stands for the rendered `time.Since(start).String()`. -/
def ZapLoggerWithConfig (config : ZapLoggerConfig) (next : HandlerFunc) :
    Ctx → String → HandlerResult :=
  -- Defaults: `if config.Skipper == nil { config.Skipper = DefaultZapLoggerConfig.Skipper }`
  let config :=
    if config.Skipper.isNone then
      { config with Skipper := DefaultZapLoggerConfig.Skipper }
    else config
  fun c latency =>
    if (config.Skipper.getD DefaultSkipper) c then
      let r := next c
      { ret := r.2, ctx := r.1, logs := [], nextCalls := 1 }
    else
      let r := next c
      let err := r.2
      -- `if err != nil { c.Error(err) }`
      let c :=
        match err with
        | some e => { r.1 with reported := r.1.reported ++ [e] }
        | none => r.1
      let requestLogField := c.reqMethod ++ " " ++ c.reqRequestURI
      let fields : List ZapField :=
        [ ⟨"remote_ip", .str c.realIP⟩,
          ⟨"latency", .str latency⟩,
          ⟨"host", .str c.reqHost⟩,
          ⟨"request", .str requestLogField⟩,
          ⟨"status", .int c.resStatus⟩,
          ⟨"size", .i64 c.resSize⟩,
          ⟨"user_agent", .str (headerGet c.reqHeader "User-Agent")⟩ ]
      let id := headerGet c.reqHeader HeaderXRequestID
      let id := if id = "" then headerGet c.resHeader HeaderXRequestID else id
      let fields := fields ++ [⟨"request_id", .str id⟩]
      let requestLogMessage :=
        if config.IncludeRequestLogMessage then ": " ++ requestLogField else ""
      let n := c.resStatus
      let entry : LogEntry :=
        if n ≥ 500 then
          ⟨.error, some err, "Server error" ++ requestLogMessage, fields⟩
        else if n ≥ 400 then
          ⟨.warn, some err, "Client error" ++ requestLogMessage, fields⟩
        else if n ≥ 300 then
          ⟨.info, none, "Redirection" ++ requestLogMessage, fields⟩
        else
          ⟨.info, none, "Success" ++ requestLogMessage, fields⟩
      { ret := none, ctx := c, logs := [entry], nextCalls := 1 }

/-- `ZapLogger`: the middleware with the default configuration. -/
def ZapLogger (next : HandlerFunc) : Ctx → String → HandlerResult :=
  ZapLoggerWithConfig DefaultZapLoggerConfig next

/-- The effective skip decision for a config on a context (after the nil
default is applied). -/
def skipOf (config : ZapLoggerConfig) (c : Ctx) : Bool :=
  (config.Skipper.getD DefaultSkipper) c

/-! ## Helper lemmas -/

/-- When the effective skipper accepts the request, the decorated handler
is a pure pass-through of `next`. -/
theorem run_of_skipped (config : ZapLoggerConfig) (next : HandlerFunc) (c : Ctx)
    (lat : String) (h : skipOf config c = true) :
    ZapLoggerWithConfig config next c lat =
      { ret := (next c).2, ctx := (next c).1, logs := [], nextCalls := 1 } := by
  obtain ⟨sk, flag⟩ := config
  cases sk with
  | none => simp [skipOf, DefaultSkipper] at h
  | some s =>
    simp only [skipOf, Option.getD] at h
    simp [ZapLoggerWithConfig, h]

/-- Full characterization of the non-skipped run: the returned error is
nil, the context has the downstream error reported once when non-nil, and
exactly one log entry is emitted with the fields and message built from
the post-`next` context. -/
theorem run_of_not_skipped (config : ZapLoggerConfig) (next : HandlerFunc) (c : Ctx)
    (lat : String) (h : skipOf config c = false) :
    ZapLoggerWithConfig config next c lat =
      let r := next c
      let c1 : Ctx :=
        match r.2 with
        | some e => { r.1 with reported := r.1.reported ++ [e] }
        | none => r.1
      let requestLogField := r.1.reqMethod ++ " " ++ r.1.reqRequestURI
      let id0 := headerGet r.1.reqHeader HeaderXRequestID
      let id := if id0 = "" then headerGet r.1.resHeader HeaderXRequestID else id0
      let fields : List ZapField :=
        [ ⟨"remote_ip", .str r.1.realIP⟩,
          ⟨"latency", .str lat⟩,
          ⟨"host", .str r.1.reqHost⟩,
          ⟨"request", .str requestLogField⟩,
          ⟨"status", .int r.1.resStatus⟩,
          ⟨"size", .i64 r.1.resSize⟩,
          ⟨"user_agent", .str (headerGet r.1.reqHeader "User-Agent")⟩,
          ⟨"request_id", .str id⟩ ]
      let suffix := if config.IncludeRequestLogMessage then ": " ++ requestLogField else ""
      let n := r.1.resStatus
      let entry : LogEntry :=
        if n ≥ 500 then ⟨.error, some r.2, "Server error" ++ suffix, fields⟩
        else if n ≥ 400 then ⟨.warn, some r.2, "Client error" ++ suffix, fields⟩
        else if n ≥ 300 then ⟨.info, none, "Redirection" ++ suffix, fields⟩
        else ⟨.info, none, "Success" ++ suffix, fields⟩
      { ret := none, ctx := c1, logs := [entry], nextCalls := 1 } := by
  obtain ⟨sk, flag⟩ := config
  cases sk with
  | none =>
    simp only [ZapLoggerWithConfig]
    cases hr : (next c).2 <;> simp [hr, DefaultZapLoggerConfig, DefaultSkipper]
  | some s =>
    simp only [skipOf, Option.getD] at h
    simp only [ZapLoggerWithConfig, h]
    cases hr : (next c).2 <;> simp [hr, h]

/-! ## Concrete inputs for counterexamples and witnesses -/

/-- A sample request context. -/
def exCtx : Ctx :=
  { reqMethod := "GET", reqRequestURI := "/foo", reqHost := "example.com",
    reqHeader := [("User-Agent", "curl"), ("X-Request-Id", "abc")],
    realIP := "10.0.0.1", resStatus := 200, resSize := 5,
    resHeader := [], reported := [] }

/-- A downstream handler that sets status 500 and returns a non-nil error. -/
def exNextErr : HandlerFunc := fun c => ({ c with resStatus := 500 }, some "boom")

/-- A downstream handler that succeeds without touching the context. -/
def exNextOk : HandlerFunc := fun c => (c, none)

/-- A configuration whose skipper skips every request. -/
def skipAllConfig : ZapLoggerConfig :=
  { Skipper := some (fun _ => true), IncludeRequestLogMessage := false }

/-! ## Claims -/

/-- Claim C1, counterexample: with the default configuration and a
downstream handler returning the non-nil error `"boom"`, the decorated
handler returns nil to its caller, not `next`'s return value — so the
return value is NOT passed through unchanged. -/
theorem C1_counterexample :
    (exNextErr exCtx).2 = some "boom" ∧
    (ZapLoggerWithConfig DefaultZapLoggerConfig exNextErr exCtx "1ms").ret = none ∧
    (ZapLoggerWithConfig DefaultZapLoggerConfig exNextErr exCtx "1ms").ret ≠
      (exNextErr exCtx).2 := by
  refine ⟨rfl, ?_, ?_⟩ <;> decide

/-- Claim C1, amended: for every configuration and handler `next`, the
decorated handler invokes `next` exactly once; it returns `next`'s value
unchanged when the request is skipped, and otherwise returns nil, having
reported a non-nil error of `next` to the context's error sink exactly
once before continuing. -/
theorem C1_amended (config : ZapLoggerConfig) (next : HandlerFunc) (c : Ctx)
    (lat : String) :
    (ZapLoggerWithConfig config next c lat).nextCalls = 1 ∧
    (ZapLoggerWithConfig config next c lat).ret =
      (if skipOf config c then (next c).2 else none) ∧
    (ZapLoggerWithConfig config next c lat).ctx.reported =
      (next c).1.reported ++ (if skipOf config c then [] else (next c).2.toList) := by
  cases hs : skipOf config c
  · rw [run_of_not_skipped config next c lat hs]
    cases hr : (next c).2 <;> simp [hr]
  · rw [run_of_skipped config next c lat hs]
    simp

/-- Claim C2: on every non-skipped request the decorated handler returns
nil to the framework, and the error sink receives exactly the downstream
error appended once when it is non-nil, and nothing when it is nil. -/
theorem C2_error_reported_once (config : ZapLoggerConfig) (next : HandlerFunc)
    (c : Ctx) (lat : String) (h : skipOf config c = false) :
    (ZapLoggerWithConfig config next c lat).ret = none ∧
    (ZapLoggerWithConfig config next c lat).ctx.reported =
      (next c).1.reported ++ (next c).2.toList := by
  rw [run_of_not_skipped config next c lat h]
  cases hr : (next c).2 <;> simp [hr]

/-- Witness for C2 at a concrete non-skipped request with a failing
downstream handler. -/
theorem C2_witness :
    (ZapLoggerWithConfig DefaultZapLoggerConfig exNextErr exCtx "1ms").ret = none ∧
    (ZapLoggerWithConfig DefaultZapLoggerConfig exNextErr exCtx "1ms").ctx.reported =
      (exNextErr exCtx).1.reported ++ (exNextErr exCtx).2.toList :=
  C2_error_reported_once DefaultZapLoggerConfig exNextErr exCtx "1ms" (by decide)

/-- Claim C5: when the skip predicate accepts the request, the decorated
handler is a pure pass-through: `next` is invoked exactly once, its result
and context are returned unchanged (so `c.Error` is never invoked by the
middleware), no log entry is emitted, and the outcome does not depend on
the measured latency. -/
theorem C5_skip_pass_through (config : ZapLoggerConfig) (next : HandlerFunc)
    (c : Ctx) (lat : String) (h : skipOf config c = true) :
    ZapLoggerWithConfig config next c lat =
      { ret := (next c).2, ctx := (next c).1, logs := [], nextCalls := 1 } :=
  run_of_skipped config next c lat h

/-- Witness for C5 at a concrete always-skipping configuration with a
failing downstream handler. -/
theorem C5_witness :
    ZapLoggerWithConfig skipAllConfig exNextErr exCtx "1ms" =
      { ret := (exNextErr exCtx).2, ctx := (exNextErr exCtx).1, logs := [],
        nextCalls := 1 } :=
  C5_skip_pass_through skipAllConfig exNextErr exCtx "1ms" (by decide)

/-- Claim C9: the default configuration uses `DefaultSkipper`, which
declines every request, has `IncludeRequestLogMessage` false, and
`ZapLogger` behaves identically to `ZapLoggerWithConfig` with the default
configuration. -/
theorem C9_default_config :
    DefaultZapLoggerConfig.Skipper = some DefaultSkipper ∧
    DefaultZapLoggerConfig.IncludeRequestLogMessage = false ∧
    (∀ c : Ctx, DefaultSkipper c = false) ∧
    (∀ (next : HandlerFunc) (c : Ctx) (lat : String),
      ZapLogger next c lat = ZapLoggerWithConfig DefaultZapLoggerConfig next c lat) :=
  ⟨rfl, rfl, fun _ => rfl, fun _ _ _ => rfl⟩

/-- Claim C10: a configuration with a nil skipper never skips, and the
middleware it produces behaves identically to the same configuration with
`DefaultSkipper` substituted, because the nil skipper is replaced when the
decorator is applied to `next`. -/
theorem C10_nil_skipper (flag : Bool) (next : HandlerFunc) (c : Ctx) (lat : String) :
    skipOf { Skipper := none, IncludeRequestLogMessage := flag } c = false ∧
    ZapLoggerWithConfig { Skipper := none, IncludeRequestLogMessage := flag } next c lat =
      ZapLoggerWithConfig { Skipper := some DefaultSkipper, IncludeRequestLogMessage := flag }
        next c lat :=
  ⟨rfl, rfl⟩

/-- Claim C3: on every non-skipped request, severity and base message are
the four-way classification of the response status alone — independent of
the downstream error, which appears in neither: status at least 500 gives
error/"Server error", 400 to 499 gives warning/"Client error", 300 to 399
gives info/"Redirection", everything else gives info/"Success". -/
theorem C3_status_classification (config : ZapLoggerConfig) (next : HandlerFunc)
    (c : Ctx) (lat : String) (h : skipOf config c = false) :
    ∃ entry : LogEntry,
      (ZapLoggerWithConfig config next c lat).logs = [entry] ∧
      entry.level =
        (if (next c).1.resStatus ≥ 500 then Level.error
         else if (next c).1.resStatus ≥ 400 then Level.warn
         else Level.info) ∧
      entry.message =
        (if (next c).1.resStatus ≥ 500 then "Server error"
         else if (next c).1.resStatus ≥ 400 then "Client error"
         else if (next c).1.resStatus ≥ 300 then "Redirection"
         else "Success") ++
        (if config.IncludeRequestLogMessage
         then ": " ++ ((next c).1.reqMethod ++ " " ++ (next c).1.reqRequestURI)
         else "") := by
  rw [run_of_not_skipped config next c lat h]
  refine ⟨_, rfl, ?_, ?_⟩ <;>
  · by_cases h5 : (next c).1.resStatus ≥ 500
    · simp [h5]
    · by_cases h4 : (next c).1.resStatus ≥ 400
      · simp [h5, h4]
      · by_cases h3 : (next c).1.resStatus ≥ 300 <;> simp [h5, h4, h3]

/-- Witness for C3 at a concrete non-skipped request whose downstream
handler sets status 500 and fails. -/
theorem C3_witness :
    ∃ entry : LogEntry,
      (ZapLoggerWithConfig DefaultZapLoggerConfig exNextErr exCtx "1ms").logs = [entry] ∧
      entry.level =
        (if (exNextErr exCtx).1.resStatus ≥ 500 then Level.error
         else if (exNextErr exCtx).1.resStatus ≥ 400 then Level.warn
         else Level.info) ∧
      entry.message =
        (if (exNextErr exCtx).1.resStatus ≥ 500 then "Server error"
         else if (exNextErr exCtx).1.resStatus ≥ 400 then "Client error"
         else if (exNextErr exCtx).1.resStatus ≥ 300 then "Redirection"
         else "Success") ++
        (if DefaultZapLoggerConfig.IncludeRequestLogMessage
         then ": " ++ ((exNextErr exCtx).1.reqMethod ++ " " ++ (exNextErr exCtx).1.reqRequestURI)
         else "") :=
  C3_status_classification DefaultZapLoggerConfig exNextErr exCtx "1ms" (by decide)

/-- Claim C4: on every non-skipped request the request_id field is the
last field of the entry, resolved after `next` returns with
first-non-empty-wins semantics: the inbound request header when non-empty,
otherwise the outbound response header (hence `""` when both are absent or
empty, since a missing header reads as `""`). -/
theorem C4_request_id (config : ZapLoggerConfig) (next : HandlerFunc)
    (c : Ctx) (lat : String) (h : skipOf config c = false) :
    ∃ entry : LogEntry,
      (ZapLoggerWithConfig config next c lat).logs = [entry] ∧
      entry.fields.getLast? = some
        ⟨"request_id", FieldVal.str
          (if headerGet (next c).1.reqHeader HeaderXRequestID = ""
           then headerGet (next c).1.resHeader HeaderXRequestID
           else headerGet (next c).1.reqHeader HeaderXRequestID)⟩ := by
  rw [run_of_not_skipped config next c lat h]
  refine ⟨_, rfl, ?_⟩
  split
  · rfl
  split
  · rfl
  split <;> rfl

/-- Witness for C4 at a concrete request carrying an inbound
X-Request-Id header. -/
theorem C4_witness :
    ∃ entry : LogEntry,
      (ZapLoggerWithConfig DefaultZapLoggerConfig exNextOk exCtx "1ms").logs = [entry] ∧
      entry.fields.getLast? = some
        ⟨"request_id", FieldVal.str
          (if headerGet (exNextOk exCtx).1.reqHeader HeaderXRequestID = ""
           then headerGet (exNextOk exCtx).1.resHeader HeaderXRequestID
           else headerGet (exNextOk exCtx).1.reqHeader HeaderXRequestID)⟩ :=
  C4_request_id DefaultZapLoggerConfig exNextOk exCtx "1ms" (by decide)

/-- Claim C6: on every non-skipped request exactly one log entry is
emitted, and its fields are, in order: remote_ip, latency, host, request
(equal to "METHOD URI" with a single separating space), status, size,
user_agent, and request_id appended last. -/
theorem C6_field_order (config : ZapLoggerConfig) (next : HandlerFunc)
    (c : Ctx) (lat : String) (h : skipOf config c = false) :
    ∃ entry : LogEntry,
      (ZapLoggerWithConfig config next c lat).logs = [entry] ∧
      entry.fields =
        [ ⟨"remote_ip", .str (next c).1.realIP⟩,
          ⟨"latency", .str lat⟩,
          ⟨"host", .str (next c).1.reqHost⟩,
          ⟨"request", .str ((next c).1.reqMethod ++ " " ++ (next c).1.reqRequestURI)⟩,
          ⟨"status", .int (next c).1.resStatus⟩,
          ⟨"size", .i64 (next c).1.resSize⟩,
          ⟨"user_agent", .str (headerGet (next c).1.reqHeader "User-Agent")⟩,
          ⟨"request_id", .str
            (if headerGet (next c).1.reqHeader HeaderXRequestID = ""
             then headerGet (next c).1.resHeader HeaderXRequestID
             else headerGet (next c).1.reqHeader HeaderXRequestID)⟩ ] := by
  rw [run_of_not_skipped config next c lat h]
  refine ⟨_, rfl, ?_⟩
  split
  · rfl
  split
  · rfl
  split <;> rfl

/-- Witness for C6 at a concrete non-skipped request. -/
theorem C6_witness :
    ∃ entry : LogEntry,
      (ZapLoggerWithConfig DefaultZapLoggerConfig exNextOk exCtx "1ms").logs = [entry] ∧
      entry.fields =
        [ ⟨"remote_ip", .str (exNextOk exCtx).1.realIP⟩,
          ⟨"latency", .str "1ms"⟩,
          ⟨"host", .str (exNextOk exCtx).1.reqHost⟩,
          ⟨"request", .str ((exNextOk exCtx).1.reqMethod ++ " " ++ (exNextOk exCtx).1.reqRequestURI)⟩,
          ⟨"status", .int (exNextOk exCtx).1.resStatus⟩,
          ⟨"size", .i64 (exNextOk exCtx).1.resSize⟩,
          ⟨"user_agent", .str (headerGet (exNextOk exCtx).1.reqHeader "User-Agent")⟩,
          ⟨"request_id", .str
            (if headerGet (exNextOk exCtx).1.reqHeader HeaderXRequestID = ""
             then headerGet (exNextOk exCtx).1.resHeader HeaderXRequestID
             else headerGet (exNextOk exCtx).1.reqHeader HeaderXRequestID)⟩ ] :=
  C6_field_order DefaultZapLoggerConfig exNextOk exCtx "1ms" (by decide)

/-- Claim C7: on every non-skipped request with status at least 400 the
entry carries the downstream error as an attached error field even when
that error is nil; below 400 no error field is attached even when the
downstream error is non-nil. -/
theorem C7_error_field (config : ZapLoggerConfig) (next : HandlerFunc)
    (c : Ctx) (lat : String) (h : skipOf config c = false) :
    ∃ entry : LogEntry,
      (ZapLoggerWithConfig config next c lat).logs = [entry] ∧
      entry.withError =
        (if (next c).1.resStatus ≥ 400 then some (next c).2 else none) := by
  rw [run_of_not_skipped config next c lat h]
  refine ⟨_, rfl, ?_⟩
  by_cases h5 : (next c).1.resStatus ≥ 500
  · have h4 : (next c).1.resStatus ≥ 400 := by omega
    simp [h5, h4]
  · by_cases h4 : (next c).1.resStatus ≥ 400
    · simp [h5, h4]
    · by_cases h3 : (next c).1.resStatus ≥ 300 <;> simp [h5, h4, h3]

/-- Witness for C7 at a concrete request: a downstream handler that
returns status 500 together with a non-nil error. -/
theorem C7_witness :
    ∃ entry : LogEntry,
      (ZapLoggerWithConfig DefaultZapLoggerConfig exNextErr exCtx "1ms").logs = [entry] ∧
      entry.withError =
        (if (exNextErr exCtx).1.resStatus ≥ 400 then some (exNextErr exCtx).2 else none) :=
  C7_error_field DefaultZapLoggerConfig exNextErr exCtx "1ms" (by decide)

/-- Claim C8: on every non-skipped request, when IncludeRequestLogMessage
is true the message is the base classification message with
": METHOD URI" appended, and when the flag is false it is the base message
alone. -/
theorem C8_message_suffix (config : ZapLoggerConfig) (next : HandlerFunc)
    (c : Ctx) (lat : String) (h : skipOf config c = false) :
    ∃ entry : LogEntry,
      (ZapLoggerWithConfig config next c lat).logs = [entry] ∧
      (config.IncludeRequestLogMessage = true →
        entry.message =
          (if (next c).1.resStatus ≥ 500 then "Server error"
           else if (next c).1.resStatus ≥ 400 then "Client error"
           else if (next c).1.resStatus ≥ 300 then "Redirection"
           else "Success") ++
          (": " ++ ((next c).1.reqMethod ++ " " ++ (next c).1.reqRequestURI))) ∧
      (config.IncludeRequestLogMessage = false →
        entry.message =
          (if (next c).1.resStatus ≥ 500 then "Server error"
           else if (next c).1.resStatus ≥ 400 then "Client error"
           else if (next c).1.resStatus ≥ 300 then "Redirection"
           else "Success")) := by
  rw [run_of_not_skipped config next c lat h]
  refine ⟨_, rfl, ?_, ?_⟩ <;> intro hflag <;>
  · by_cases h5 : (next c).1.resStatus ≥ 500
    · simp [h5, hflag]
    · by_cases h4 : (next c).1.resStatus ≥ 400
      · simp [h5, h4, hflag]
      · by_cases h3 : (next c).1.resStatus ≥ 300 <;> simp [h5, h4, h3, hflag]

/-- A configuration that includes the request summary in the message. -/
def msgConfig : ZapLoggerConfig :=
  { Skipper := some DefaultSkipper, IncludeRequestLogMessage := true }

/-- Witness for C8 at a concrete GET /foo request with status 200 and the
flag enabled. -/
theorem C8_witness :
    ∃ entry : LogEntry,
      (ZapLoggerWithConfig msgConfig exNextOk exCtx "1ms").logs = [entry] ∧
      (msgConfig.IncludeRequestLogMessage = true →
        entry.message =
          (if (exNextOk exCtx).1.resStatus ≥ 500 then "Server error"
           else if (exNextOk exCtx).1.resStatus ≥ 400 then "Client error"
           else if (exNextOk exCtx).1.resStatus ≥ 300 then "Redirection"
           else "Success") ++
          (": " ++ ((exNextOk exCtx).1.reqMethod ++ " " ++ (exNextOk exCtx).1.reqRequestURI))) ∧
      (msgConfig.IncludeRequestLogMessage = false →
        entry.message =
          (if (exNextOk exCtx).1.resStatus ≥ 500 then "Server error"
           else if (exNextOk exCtx).1.resStatus ≥ 400 then "Client error"
           else if (exNextOk exCtx).1.resStatus ≥ 300 then "Redirection"
           else "Success")) :=
  C8_message_suffix msgConfig exNextOk exCtx "1ms" (by decide)
